import Mathlib

/-!
Shallow embedding of src/ring_buffer.c: a multi-process pipeline built on two
shared circular buffers (Task Buffer and Log Buffer) coordinated by counting
semaphores and atomic fetch-and-increment cursors.  Pure arithmetic of the C
code is embedded as Lean functions over Nat and Int (with explicit modular
reduction where the C types wrap); the straight-line statement order of each
role body is embedded as a concrete event trace; the per-slot readiness
lifecycle is embedded as a small state machine.
-/

namespace RingBuf

/-! ## Configuration constants, from the defines in src/ring_buffer.c -/

def BUFFER_SIZE : Nat := 1024
def MIN_TASK_SIZE : Nat := 10000000
def MAX_TASK_SIZE : Nat := 100000000
def WORKERS : Nat := 10
def PRODUCERS : Nat := 5
def LOGGERS : Nat := 2

/-- Value of INT_MAX on the target platform (32-bit int). -/
def INT_MAX : Nat := 2147483647

/-- Largest value the C library rand function can return (glibc RAND_MAX,
equal to INT_MAX on the target). -/
def RAND_MAX : Nat := 2147483647

/-- Modulus of the unsigned long long cursor fields in and out. -/
def ULL_MOD : Nat := 2 ^ 64

/-! ## Producer arithmetic

The producer computes, from the successive values returned by rand (always
in [0, RAND_MAX]):
  taskSize = MIN_TASK_SIZE + rand() % MAX_TASK_SIZE   (line 88)
  data     = rand() % INT_MAX                          (line 103)
All intermediate C values fit in int / unsigned long long, so plain Nat
arithmetic embeds them exactly. -/

/-- Iteration count chosen by a producer, as a function of the rand value r. -/
def taskSize (r : Nat) : Nat := MIN_TASK_SIZE + r % MAX_TASK_SIZE

/-- Payload published by a producer, as a function of the rand value r.
The C expression rand() % INT_MAX is int arithmetic on a nonnegative
operand, embedded as the Nat remainder cast into Int. -/
def payloadOf (r : Nat) : Int := ((r % INT_MAX : Nat) : Int)

/-- Sentinel payload written by the orchestrator during shutdown. -/
def sentinel : Int := -1

/-- Claim C3, as stated by the spec, over every value rand can return. -/
def claimC3 : Prop :=
  ∀ r : Nat, r ≤ RAND_MAX → MIN_TASK_SIZE ≤ taskSize r ∧ taskSize r ≤ MAX_TASK_SIZE

/-- Claim C3 fails on the code: at rand value 99999999 the computed
iteration count is 109999999, exceeding MAX_TASK_SIZE = 100000000.  The
constant names MIN_TASK_SIZE and MAX_TASK_SIZE document the intended bounds,
so the expression MIN_TASK_SIZE + rand() % MAX_TASK_SIZE is a slip: the code
can exceed its own declared maximum. -/
theorem taskSize_exceeds_max_at_99999999 :
    99999999 ≤ RAND_MAX ∧ taskSize 99999999 = 109999999 ∧
      MAX_TASK_SIZE < taskSize 99999999 ∧ ¬ claimC3 := by
  refine ⟨by decide, by decide, by decide, fun h => ?_⟩
  have := (h 99999999 (by decide)).2
  revert this
  decide

/-- Claim C4: for every value the random generator can return, the published
payload rand() % INT_MAX never equals the sentinel -1. -/
theorem payload_never_sentinel : ∀ r : Nat, payloadOf r ≠ sentinel := by
  intro r h
  have h0 : (0 : Int) ≤ payloadOf r := Int.natCast_nonneg _
  rw [h] at h0
  exact absurd h0 (by decide)

/-- Claim C9: every published payload is nonnegative and strictly below
INT_MAX, hence strictly inside the non-sentinel range. -/
theorem payload_range :
    ∀ r : Nat, 0 ≤ payloadOf r ∧ payloadOf r ≤ (INT_MAX : Int) - 1 := by
  intro r
  unfold payloadOf
  constructor
  · exact Int.natCast_nonneg _
  · have h : r % INT_MAX < INT_MAX := Nat.mod_lt _ (by decide)
    have h2 : ((r % INT_MAX : Nat) : Int) < ((INT_MAX : Nat) : Int) := by
      exact_mod_cast h
    omega

/-! ## Cursor claims

Both buffers hand out write (and read) positions with
__sync_fetch_and_add on an unsigned long long cursor: the k-th claim
performed on a buffer whose cursor started at in0 receives the value
(in0 + k) mod 2^64, and the physical slot index is that value mod
BUFFER_SIZE (lines 101-102, 125, 146, 165). -/

/-- Cursor value returned by the k-th fetch-and-increment on a cursor that
started at in0 (unsigned long long arithmetic, so reduced mod 2^64). -/
def claimCursor (in0 k : Nat) : Nat := (in0 + k) % ULL_MOD

/-- Physical slot index for a cursor value: cursor % BUFFER_SIZE. -/
def physIndex (c : Nat) : Nat := c % BUFFER_SIZE

/-- Claim C5: cursor values handed out by fetch-and-increment are pairwise
distinct (within the 2^64 range of the 64-bit counter), and within any window
of BUFFER_SIZE consecutive claims the physical indices contain no
duplicates. -/
theorem claim_write_unique :
    (∀ in0 k j : Nat, k < ULL_MOD → j < ULL_MOD → k ≠ j →
      claimCursor in0 k ≠ claimCursor in0 j) ∧
    (∀ in0 s k j : Nat, s ≤ k → k < s + BUFFER_SIZE → s ≤ j → j < s + BUFFER_SIZE →
      k ≠ j → physIndex (claimCursor in0 k) ≠ physIndex (claimCursor in0 j)) := by
  constructor
  · intro in0 k j hk hj hne heq
    unfold claimCursor ULL_MOD at *
    omega
  · intro in0 s k j hsk hk hsj hj hne heq
    unfold physIndex claimCursor ULL_MOD BUFFER_SIZE at *
    omega

/-- Witness for claim C5 at concrete cursor positions. -/
theorem claim_write_unique_witness :
    claimCursor 0 1 ≠ claimCursor 0 2 ∧
      physIndex (claimCursor 7 3) ≠ physIndex (claimCursor 7 4) :=
  ⟨claim_write_unique.1 0 1 2 (by decide) (by decide) (by decide),
   claim_write_unique.2 7 3 3 4 (by decide) (by decide) (by decide) (by decide)
     (by decide)⟩

/-! ## Orchestrator statement trace

main (lines 183-263) is straight-line code: two mmap calls, four sem_init
calls, three fork loops, the producer wait loop, the two sentinel-injection
loops, the worker and logger wait loops, and two munmap calls.  None of the
mmap or sem_init results is inspected — there is no branch in main — so the
statement trace is one fixed list, independent of whether those calls
failed.  The three Bool parameters record the outcomes of the task-buffer
mmap, the log-buffer mmap and the sem_init calls; they are deliberately
unused, mirroring the branch-free source. -/

inductive MainEvent where
  | mmapTask
  | mmapLog
  | semInitCall
  | diagAbort
  | forkProducer
  | forkWorker
  | forkLogger
  | waitProducer
  | injectTaskSentinel
  | injectLogSentinel
  | waitWorker
  | waitLogger
  | munmapCall
deriving DecidableEq

def mainTrace (_tbFail _lbFail _semFail : Bool) : List MainEvent :=
  [MainEvent.mmapTask, MainEvent.mmapLog]
    ++ List.replicate 4 MainEvent.semInitCall
    ++ List.replicate PRODUCERS MainEvent.forkProducer
    ++ List.replicate WORKERS MainEvent.forkWorker
    ++ List.replicate LOGGERS MainEvent.forkLogger
    ++ List.replicate PRODUCERS MainEvent.waitProducer
    ++ List.replicate WORKERS MainEvent.injectTaskSentinel
    ++ List.replicate LOGGERS MainEvent.injectLogSentinel
    ++ List.replicate WORKERS MainEvent.waitWorker
    ++ List.replicate LOGGERS MainEvent.waitLogger
    ++ [MainEvent.munmapCall, MainEvent.munmapCall]

/-- Trace of a run in which both mmap calls and all sem_init calls succeed. -/
def mainRunTrace : List MainEvent := mainTrace false false false

/-- Every occurrence of a in tr is strictly before every occurrence of b. -/
def allBefore {α : Type} [DecidableEq α] (tr : List α) (a b : α) : Prop :=
  ∀ i j : Fin tr.length, tr.get i = a → tr.get j = b → (i : Nat) < (j : Nat)

instance {α : Type} [DecidableEq α] (tr : List α) (a b : α) :
    Decidable (allBefore tr a b) := by
  unfold allBefore
  infer_instance

/-- Claim C1 as stated: producers are all waited on before any task sentinel,
exactly WORKERS task sentinels are injected, all task sentinels precede the
worker waits, every worker is waited on before any log sentinel is injected,
and exactly LOGGERS log sentinels are injected. -/
def claimC1 : Prop :=
  allBefore mainRunTrace MainEvent.waitProducer MainEvent.injectTaskSentinel ∧
  mainRunTrace.count MainEvent.injectTaskSentinel = WORKERS ∧
  allBefore mainRunTrace MainEvent.injectTaskSentinel MainEvent.waitWorker ∧
  mainRunTrace.count MainEvent.waitWorker = WORKERS ∧
  allBefore mainRunTrace MainEvent.waitWorker MainEvent.injectLogSentinel ∧
  mainRunTrace.count MainEvent.injectLogSentinel = LOGGERS

instance : Decidable claimC1 := by
  unfold claimC1
  infer_instance

/-- Claim C1 fails on the code: in main, the log-sentinel injection loop
(lines 243-250) runs immediately after the task-sentinel loop and before the
worker wait loop (lines 253-255), so the L log sentinels are injected before
any worker has been waited on. -/
theorem shutdown_waits_workers_before_log_sentinels_false : ¬ claimC1 := by
  intro h
  have := h.2.2.2.2.1
  revert this
  decide

/-- Claim C1 amended: after all producers are waited on, exactly WORKERS
sentinels are injected into the Task Buffer, then immediately — before any
worker is waited on — exactly LOGGERS sentinels are injected into the Log
Buffer; only then does the orchestrator wait for all workers, and then for
all loggers. -/
theorem shutdown_order_actual :
    allBefore mainRunTrace MainEvent.waitProducer MainEvent.injectTaskSentinel ∧
    mainRunTrace.count MainEvent.injectTaskSentinel = WORKERS ∧
    allBefore mainRunTrace MainEvent.injectTaskSentinel MainEvent.injectLogSentinel ∧
    mainRunTrace.count MainEvent.injectLogSentinel = LOGGERS ∧
    allBefore mainRunTrace MainEvent.injectLogSentinel MainEvent.waitWorker ∧
    mainRunTrace.count MainEvent.waitWorker = WORKERS ∧
    allBefore mainRunTrace MainEvent.waitWorker MainEvent.waitLogger ∧
    mainRunTrace.count MainEvent.waitLogger = LOGGERS := by
  decide

/-- Claim C2 as stated: whenever the task-buffer mmap, the log-buffer mmap or
semaphore initialization fails, main emits a diagnostic-and-abort before any
role process is forked. -/
def claimC2 : Prop :=
  ∀ tbFail lbFail semFail : Bool, (tbFail || lbFail || semFail) = true →
    MainEvent.diagAbort ∈ mainTrace tbFail lbFail semFail ∧
    MainEvent.forkProducer ∉ mainTrace tbFail lbFail semFail ∧
    MainEvent.forkWorker ∉ mainTrace tbFail lbFail semFail ∧
    MainEvent.forkLogger ∉ mainTrace tbFail lbFail semFail

/-- Claim C2 fails on the code: main never inspects the return values of
mmap or sem_init (lines 186-193 have no branch), so on a failed task-buffer
mmap it still forks every role process and emits no diagnostic. -/
theorem setup_failure_abort_false : ¬ claimC2 := by
  intro h
  have := (h true false false (by decide)).1
  revert this
  decide

/-- Claim C2 amended: main performs no check on the mmap or sem_init
results — its statement trace is identical whether or not they failed, it
never emits a diagnostic abort, and it always proceeds to fork all roles. -/
theorem setup_failures_unchecked :
    ∀ tbFail lbFail semFail : Bool,
      mainTrace tbFail lbFail semFail = mainRunTrace ∧
      MainEvent.diagAbort ∉ mainTrace tbFail lbFail semFail ∧
      MainEvent.forkProducer ∈ mainTrace tbFail lbFail semFail := by
  intro a b c
  refine ⟨rfl, ?_, ?_⟩
  · show MainEvent.diagAbort ∉ mainRunTrace
    decide
  · show MainEvent.forkProducer ∈ mainRunTrace
    decide

/-! ## Publish statement order

Each publish site in the source is straight-line code; its statement order
is embedded as a concrete list of steps:
  producer loop body, lines 95-114;
  worker log-buffer publish, lines 145-154;
  orchestrator sentinel injection, lines 232-239 and 243-250. -/

inductive PubStep where
  | waitEmpty
  | fetchAddIn
  | writeOrigin
  | writePayload
  | barrier
  | setReady
  | postFull
deriving DecidableEq

/-- Statement order of one producer iteration (producerPid then data, then
the barrier, then ready = 1, then sem_post on full). -/
def producerPublishSteps : List PubStep :=
  [PubStep.waitEmpty, PubStep.fetchAddIn, PubStep.writeOrigin,
   PubStep.writePayload, PubStep.barrier, PubStep.setReady, PubStep.postFull]

/-- Statement order of the worker's publish into the Log Buffer (data, then
producerPid, then workerPid, then barrier, ready = 1, sem_post on full). -/
def workerPublishSteps : List PubStep :=
  [PubStep.waitEmpty, PubStep.fetchAddIn, PubStep.writePayload,
   PubStep.writeOrigin, PubStep.writeOrigin, PubStep.barrier,
   PubStep.setReady, PubStep.postFull]

/-- Statement order of one orchestrator sentinel injection (data = -1, then
producerPid, then barrier, ready = 1, sem_post on full); the task-buffer and
log-buffer injection loops have the same body. -/
def sentinelPublishSteps : List PubStep :=
  [PubStep.waitEmpty, PubStep.fetchAddIn, PubStep.writePayload,
   PubStep.writeOrigin, PubStep.barrier, PubStep.setReady, PubStep.postFull]

/-- The ordering demanded by the claim: payload and origin writes all
precede the full memory barrier, which precedes setting ready, which
precedes the sem_post on full_count; and all four kinds of step occur. -/
def publishOrdered (tr : List PubStep) : Prop :=
  PubStep.writePayload ∈ tr ∧ PubStep.writeOrigin ∈ tr ∧
  PubStep.barrier ∈ tr ∧ PubStep.setReady ∈ tr ∧ PubStep.postFull ∈ tr ∧
  allBefore tr PubStep.writePayload PubStep.barrier ∧
  allBefore tr PubStep.writeOrigin PubStep.barrier ∧
  allBefore tr PubStep.barrier PubStep.setReady ∧
  allBefore tr PubStep.setReady PubStep.postFull

instance (tr : List PubStep) : Decidable (publishOrdered tr) := by
  unfold publishOrdered
  infer_instance

/-- Claim C6: every publish site — producer, worker, and the orchestrator's
sentinel injections — writes the payload and origin fields, then issues the
full memory barrier, then sets the slot's ready flag, and only then posts
the buffer's full semaphore. -/
theorem publish_step_order :
    publishOrdered producerPublishSteps ∧ publishOrdered workerPublishSteps ∧
      publishOrdered sentinelPublishSteps := by
  decide

/-! ## Worker per-slot behavior (lines 117-156) -/

/-- The fields of a Task Buffer slot as the worker reads them. -/
structure TaskView where
  data : Int
  producerPid : Int
deriving DecidableEq

/-- The record the worker publishes into the Log Buffer. -/
structure LogRecord where
  workerPid : Int
  producerPid : Int
  data : Int
deriving DecidableEq

/-- What one worker loop iteration does after consuming a task slot. -/
inductive WorkerOutcome where
  | exited
  | logged (entry : LogRecord)
deriving DecidableEq

/-- One worker iteration after the consume: if the consumed data is -1 the
process exits (line 141: exit(0)); otherwise it publishes a log record
carrying the consumed data, the consumed producerPid, and its own pid
(lines 147-149). -/
def workerIter (self : Int) (t : TaskView) : WorkerOutcome :=
  if t.data = -1 then WorkerOutcome.exited
  else WorkerOutcome.logged ⟨self, t.producerPid, t.data⟩

/-- Claim C7: on a sentinel payload the worker terminates and writes nothing
to the Log Buffer; on any other payload it publishes a Log Entity carrying
the consumed payload, the original producer identity, and its own identity
as processor. -/
theorem worker_iter_behavior (self : Int) (t : TaskView) :
    (t.data = sentinel → workerIter self t = WorkerOutcome.exited) ∧
    (t.data ≠ sentinel →
      workerIter self t = WorkerOutcome.logged ⟨self, t.producerPid, t.data⟩) := by
  unfold workerIter sentinel
  constructor
  · intro h
    simp [h]
  · intro h
    simp [h]

/-- Witness for claim C7 at a concrete sentinel slot and a concrete data
slot. -/
theorem worker_iter_behavior_witness :
    workerIter 3 ⟨-1, 9⟩ = WorkerOutcome.exited ∧
      workerIter 3 ⟨5, 9⟩ = WorkerOutcome.logged ⟨3, 9, 5⟩ :=
  ⟨(worker_iter_behavior 3 ⟨-1, 9⟩).1 rfl,
   (worker_iter_behavior 3 ⟨5, 9⟩).2 (by decide)⟩

/-! ## Slot readiness lifecycle

Each physical slot cycles through: writable (handed to a claim_write),
claimed (cursor taken, fields being written), readable (ready = 1 published).
The shared mapping is created with MAP_ANONYMOUS, so every field starts at
zero (line 186); publish sets ready to 1 (producer line 110, worker line 153,
main lines 238 and 247); consume clears ready to 0 before posting empty
(worker line 137, logger line 171). -/

inductive SlotPhase where
  | writable
  | claimed
  | readable
deriving DecidableEq

structure SlotState where
  phase : SlotPhase
  ready : Nat
deriving DecidableEq

/-- Initial slot state: the MAP_ANONYMOUS mapping is zero-filled. -/
def initSlot : SlotState := ⟨SlotPhase.writable, 0⟩

/-- Transitions a slot undergoes: a claim_write takes a writable slot
(leaving ready untouched), a publish sets ready to 1, a consume clears
ready to 0 and returns the slot to the writers. -/
inductive SlotStep : SlotState → SlotState → Prop where
  | claim (s : SlotState) : s.phase = SlotPhase.writable →
      SlotStep s ⟨SlotPhase.claimed, s.ready⟩
  | publish (s : SlotState) : s.phase = SlotPhase.claimed →
      SlotStep s ⟨SlotPhase.readable, 1⟩
  | consume (s : SlotState) : s.phase = SlotPhase.readable →
      SlotStep s ⟨SlotPhase.writable, 0⟩

/-- Slot states reachable from the zero-initialized slot. -/
inductive SlotReachable : SlotState → Prop where
  | init : SlotReachable initSlot
  | step (s t : SlotState) : SlotReachable s → SlotStep s t → SlotReachable t

/-- Statement order of a consume, identical in worker (lines 122-138) and
logger (lines 162-172): the ready flag is cleared before sem_post on
empty. -/
inductive ConsumeStep where
  | waitFull
  | fetchAddOut
  | pollReady
  | readFields
  | barrier
  | clearReady
  | postEmpty
deriving DecidableEq

def workerConsumeSteps : List ConsumeStep :=
  [ConsumeStep.waitFull, ConsumeStep.fetchAddOut, ConsumeStep.pollReady,
   ConsumeStep.readFields, ConsumeStep.barrier, ConsumeStep.clearReady,
   ConsumeStep.postEmpty]

def loggerConsumeSteps : List ConsumeStep :=
  [ConsumeStep.waitFull, ConsumeStep.fetchAddOut, ConsumeStep.pollReady,
   ConsumeStep.readFields, ConsumeStep.barrier, ConsumeStep.clearReady,
   ConsumeStep.postEmpty]

/-- Claim C8: every reachable slot state that is writable has ready = 0 —
slots start zero-initialized and every consume clears ready — and in both
the worker and the logger the clearing of ready precedes the sem_post on
empty_count. -/
theorem writable_slot_ready_zero :
    (∀ s : SlotState, SlotReachable s → s.phase = SlotPhase.writable →
      s.ready = 0) ∧
    initSlot.ready = 0 ∧
    (ConsumeStep.clearReady ∈ workerConsumeSteps ∧
      allBefore workerConsumeSteps ConsumeStep.clearReady ConsumeStep.postEmpty) ∧
    (ConsumeStep.clearReady ∈ loggerConsumeSteps ∧
      allBefore loggerConsumeSteps ConsumeStep.clearReady ConsumeStep.postEmpty) := by
  refine ⟨?_, rfl, by decide, by decide⟩
  intro s hs
  induction hs with
  | init =>
    intro _
    rfl
  | step s t _ hst _ =>
    cases hst with
    | claim h =>
      intro hp
      exact absurd hp (by simp)
    | publish h =>
      intro hp
      exact absurd hp (by simp)
    | consume h =>
      intro _
      rfl

/-- Witness for claim C8 at the initial slot state. -/
theorem writable_slot_ready_zero_witness : initSlot.ready = 0 :=
  writable_slot_ready_zero.1 initSlot SlotReachable.init rfl

/-! ## Producer determinism in the seed

The producer seeds the C library generator with srand(time(NULL)) and then
draws every value — the iteration count and each payload — from successive
rand calls (lines 83-103).  The libc generator is deterministic: after
srand(seed), the k-th rand call returns a fixed function of seed and k,
modelled here by an arbitrary g : Nat → Nat → Nat. -/

/-- Iteration count the producer picks: MIN_TASK_SIZE + rand % MAX_TASK_SIZE
with the first rand call after seeding. -/
def producerTaskSize (g : Nat → Nat → Nat) (seed : Nat) : Nat :=
  taskSize (g seed 0)

/-- The sequence of payloads the producer publishes: one rand % INT_MAX per
iteration, drawn from the subsequent rand calls. -/
def producerPayloads (g : Nat → Nat → Nat) (seed : Nat) : List Int :=
  (List.range (producerTaskSize g seed)).map (fun i => payloadOf (g seed (i + 1)))

/-- Claim C10: two producers whose time(NULL) calls return the same value
seed srand identically and therefore pick the same iteration count and
publish the same sequence of payloads. -/
theorem producer_deterministic (g : Nat → Nat → Nat) (s1 s2 : Nat)
    (h : s1 = s2) :
    producerTaskSize g s1 = producerTaskSize g s2 ∧
      producerPayloads g s1 = producerPayloads g s2 := by
  subst h
  exact ⟨rfl, rfl⟩

/-- A concrete stand-in generator for the witness. -/
def gdemo : Nat → Nat → Nat := fun s k => s + k

/-- Witness for claim C10 at a concrete seed. -/
theorem producer_deterministic_witness :
    producerTaskSize gdemo 42 = producerTaskSize gdemo 42 ∧
      producerPayloads gdemo 42 = producerPayloads gdemo 42 :=
  producer_deterministic gdemo 42 42 rfl

end RingBuf
